import Mathlib

/-!
Shallow embedding of `custom_components/melcloud/coordinator.py` from the
hass-melcloud-coordinator repository, together with the Home Assistant
framework contract its coordinator relies on, and proofs of the spec claims.

Modelling conventions:
* The opaque device state blob (`Device._state`, a JSON dict) is modelled as
  an abstract `Nat`; `None`/missing state is `Option.none`.
* Python object identity (the single `Device` object shared between the
  coordinator and its `MelCloudDevice` wrapper, and the single wrapper
  created in the constructor) is modelled with explicit numeric object ids
  that are assigned at construction and never changed afterwards; mutation
  of the shared `Device` updates both aliases.
* Network effects are modelled by passing the outcome of each network call
  (`Device.update`, `Device.set`, `get_devices`) as an explicit argument:
  success with a fetched state, an HTTP response error with a status code
  (aiohttp `ClientResponseError`), a connection error
  (aiohttp `ClientConnectionError`), or — for the discovery call, which runs
  under `asyncio.timeout(10)` — a timeout.
* Exceptions are modelled with `Except`; the error type collects the
  exceptions that cross the boundaries of the embedded functions.
* The md5-based state hash (used only for debug logging bookkeeping in
  `_last_state_hash`) is abstracted to the identity function on the abstract
  state blob; the claims only depend on whether the stored hash changes.
-/

namespace MelCloud

/-- The constant `REQUEST_REFRESH_DELAY = 1.5` (seconds), expressed in
milliseconds: the debounce cooldown handed to the `Debouncer`. -/
def REQUEST_REFRESH_DELAY_MS : Nat := 1500

/-- The constant `DEFAULT_UPDATE_INTERVAL = 2` (minutes). -/
def DEFAULT_UPDATE_INTERVAL : Nat := 2

/-- The `10` second bound of `asyncio.timeout(10)` around `get_devices` in
`mel_devices_setup`. -/
def DISCOVERY_TIMEOUT_SECONDS : Nat := 10

/-- A `pymelcloud` `Device` as the coordinator sees it: an identity
(object id and name) plus the mutable `_state` blob. -/
structure Device where
  objId : Nat
  name : String
  state : Option Nat
deriving Repr, DecidableEq

/-- The `MelCloudDevice` wrapper from `coordinator.py`: holds the (aliased)
`Device` and a `name` copied from the device at construction.  `wrapperId`
models Python object identity of the wrapper itself. -/
structure MelCloudDevice where
  wrapperId : Nat
  device : Device
  name : String
deriving Repr, DecidableEq

/-- Outcome of one `Device.update()` network call. -/
inductive UpdateOutcome where
  | success (fetched : Option Nat)
  | respError (status : Nat)
  | connError
deriving Repr, DecidableEq

/-- Outcome of one `Device.set(properties)` network call. -/
inductive SetOutcome where
  | success
  | respError (status : Nat)
  | connError
deriving Repr, DecidableEq

/-- Outcome of the `get_devices` discovery call in `mel_devices_setup`,
which runs inside `asyncio.timeout(10)`. -/
inductive DiscoverOutcome where
  | success (categories : List (String × List Device))
  | respError (status : Nat)
  | connError
  | timeout
deriving Repr, DecidableEq

/-- The exceptions crossing the embedded functions' boundaries:
`ConfigEntryAuthFailed`, `ConfigEntryNotReady` (raised by the Home Assistant
frame when a first refresh fails), `UpdateFailed` with its message, and an
uncaught aiohttp `ClientResponseError`. -/
inductive RaisedError where
  | configEntryAuthFailed
  | configEntryNotReady (msg : String)
  | updateFailed (msg : String)
  | clientResponseError (status : Nat)
deriving Repr, DecidableEq

/-- Abstraction of the md5 `_last_state_hash` bookkeeping: the claims only
depend on equality of hashes, so the hash of the abstract blob is itself. -/
def stateHash (st : Nat) : Nat := st

/-- State of one `MelCloudDeviceUpdateCoordinator`, including the fields the
`DataUpdateCoordinator` base class keeps for it (its stored `data` and the
configuration passed to `super().__init__`). -/
structure CoordState where
  device : Device
  device_available : Bool
  last_state_hash : Option Nat
  mel_device : MelCloudDevice
  data : Option MelCloudDevice
  last_update_success : Bool
  update_interval_minutes : Nat
  always_update : Bool
  debounce_cooldown_ms : Nat
  debounce_immediate : Bool
deriving Repr, DecidableEq

/-- `MelCloudDeviceUpdateCoordinator.__init__`: availability starts `true`,
no state hash yet, a two-minute update interval, `always_update=False`, a
non-immediate debouncer with cooldown `REQUEST_REFRESH_DELAY`, and the
`MelCloudDevice` wrapper created once (aliasing the same `Device`).  The
base class starts with no data.  The wrapper id is drawn from the device's
object id, marking the one-time creation. -/
def initCoordinator (device : Device) : CoordState :=
  { device := device
    device_available := true
    last_state_hash := none
    mel_device := { wrapperId := device.objId, device := device, name := device.name }
    data := none
    last_update_success := true
    update_interval_minutes := DEFAULT_UPDATE_INTERVAL
    always_update := false
    debounce_cooldown_ms := REQUEST_REFRESH_DELAY_MS
    debounce_immediate := false }

/-- `MelCloudDeviceUpdateCoordinator._async_update_data`, given the outcome
of the `Device.update()` call.  On success the shared device's state blob is
replaced by the fetched one (visible through both aliases), availability is
set `true`, and — when the new state blob is present (truthy) — the state
hash is refreshed.  A `ClientResponseError` with status 401 or 403 raises
`ConfigEntryAuthFailed`; any other status (429 logs a rate-limit error,
others a warning) and a `ClientConnectionError` only flip availability to
`false`.  All non-raising paths return `self.mel_device`. -/
def asyncUpdateData (s : CoordState) (o : UpdateOutcome) :
    Except RaisedError (CoordState × MelCloudDevice) :=
  match o with
  | .success fetched =>
      let dev : Device := { s.device with state := fetched }
      let s1 : CoordState :=
        { s with
          device := dev
          mel_device := { s.mel_device with device := dev }
          device_available := true
          last_state_hash :=
            match fetched with
            | some st => some (stateHash st)
            | none => s.last_state_hash }
      .ok (s1, s1.mel_device)
  | .respError status =>
      if status = 401 ∨ status = 403 then
        .error .configEntryAuthFailed
      else
        let s1 : CoordState := { s with device_available := false }
        .ok (s1, s1.mel_device)
  | .connError =>
      let s1 : CoordState := { s with device_available := false }
      .ok (s1, s1.mel_device)

/-- Result of `async_set`: the new coordinator state and whether the
debounced `async_request_refresh()` was reached. -/
structure SetResult where
  state : CoordState
  refreshRequested : Bool
deriving Repr, DecidableEq

/-- `MelCloudDeviceUpdateCoordinator.async_set`, given the outcome of the
`Device.set(properties)` call.  Only `ClientConnectionError` is caught
(availability `false`); success sets availability `true`; in both cases the
debounced `async_request_refresh()` follows.  Any other exception — in
particular a `ClientResponseError` — propagates to the caller, skipping the
refresh. -/
def asyncSet (s : CoordState) (properties : List (String × String))
    (o : SetOutcome) : Except RaisedError SetResult :=
  match o with
  | .success => .ok { state := { s with device_available := true }, refreshRequested := true }
  | .connError => .ok { state := { s with device_available := false }, refreshRequested := true }
  | .respError status => .error (.clientResponseError status)

/-- Home Assistant frame, `DataUpdateCoordinator.async_config_entry_first_refresh`:
runs `_async_update_data`; a normal return stores the result as `data` and
the refresh is a success; `ConfigEntryAuthFailed` propagates; `UpdateFailed`
(or any other refresh failure) is surfaced as `ConfigEntryNotReady`. -/
def configEntryFirstRefresh (s : CoordState) (o : UpdateOutcome) :
    Except RaisedError CoordState :=
  match asyncUpdateData s o with
  | .ok (s1, md) => .ok { s1 with data := some md, last_update_success := true }
  | .error .configEntryAuthFailed => .error .configEntryAuthFailed
  | .error (.updateFailed m) => .error (.configEntryNotReady m)
  | .error e => .error e

/-- Home Assistant frame, a steady-state scheduled refresh
(`DataUpdateCoordinator._async_refresh`): a normal return of
`_async_update_data` stores the result as `data` and marks success; an
exception (including `ConfigEntryAuthFailed`, which additionally starts a
reauth flow upstream) is absorbed, marking the refresh failed and leaving
`data` untouched.  The poll timer is unaffected either way. -/
def scheduledRefresh (s : CoordState) (o : UpdateOutcome) : CoordState :=
  match asyncUpdateData s o with
  | .ok (s1, md) => { s1 with data := some md, last_update_success := true }
  | .error _ => { s with last_update_success := false }

/-- A sequence of scheduled polls, one outcome per cycle. -/
def runPolls (s : CoordState) (outs : List UpdateOutcome) : CoordState :=
  outs.foldl scheduledRefresh s

/-- The inner loop of `mel_devices_setup` for one category's device list:
construct a `MelCloudDeviceUpdateCoordinator` per device and run its
`async_config_entry_first_refresh()`; any exception propagates, aborting the
whole setup.  `refreshOf` gives the outcome of each device's initial
`Device.update()` call. -/
def setupCategory (devices : List Device) (refreshOf : Device → UpdateOutcome) :
    Except RaisedError (List CoordState) :=
  match devices with
  | [] => .ok []
  | d :: rest =>
      match configEntryFirstRefresh (initCoordinator d) (refreshOf d) with
      | .error e => .error e
      | .ok s =>
          match setupCategory rest refreshOf with
          | .error e => .error e
          | .ok ss => .ok (s :: ss)

/-- The outer loop of `mel_devices_setup` over `all_devices.items()`,
building the category-keyed coordinator registry. -/
def setupCategories (categories : List (String × List Device))
    (refreshOf : Device → UpdateOutcome) :
    Except RaisedError (List (String × List CoordState)) :=
  match categories with
  | [] => .ok []
  | (cat, devices) :: rest =>
      match setupCategory devices refreshOf with
      | .error e => .error e
      | .ok ss =>
          match setupCategories rest refreshOf with
          | .error e => .error e
          | .ok later => .ok ((cat, ss) :: later)

/-- The `UpdateFailed` message for a 429 from discovery. -/
def rateLimitMsg : String :=
  "MELCloud rate limit exceeded. Your account may be temporarily blocked"

/-- The `UpdateFailed` message for other discovery failures,
`f"Error communicating with MELCloud: {ex}"`; the formatted exception is
abstracted to a short tag plus the status where present. -/
def commErrorMsg (tag : String) : String :=
  "Error communicating with MELCloud: " ++ tag

/-- `mel_devices_setup`: runs `get_devices` under `asyncio.timeout(10)`;
classifies discovery failures (401/403 → `ConfigEntryAuthFailed`, 429 →
`UpdateFailed` with the rate-limit message, other statuses and
timeout/connection errors → generic `UpdateFailed`); on success builds one
coordinator per device, first-refreshing each, grouped by category. -/
def melDevicesSetup (disc : DiscoverOutcome) (refreshOf : Device → UpdateOutcome) :
    Except RaisedError (List (String × List CoordState)) :=
  match disc with
  | .respError status =>
      if status = 401 ∨ status = 403 then
        .error .configEntryAuthFailed
      else if status = 429 then
        .error (.updateFailed rateLimitMsg)
      else
        .error (.updateFailed (commErrorMsg ("status " ++ toString status)))
  | .connError => .error (.updateFailed (commErrorMsg "connection error"))
  | .timeout => .error (.updateFailed (commErrorMsg "timeout"))
  | .success categories => setupCategories categories refreshOf

/-- Does a `Device.update()` outcome raise `ConfigEntryAuthFailed` inside
`_async_update_data`?  True exactly for HTTP 401/403. -/
def isAuthOutcome : UpdateOutcome → Bool
  | .respError status => status = 401 || status = 403
  | _ => false

/-- The coordinator state after a successful (non-raising)
`async_config_entry_first_refresh` of a fresh coordinator: used to state the
shape of the registry `mel_devices_setup` returns. -/
def coordAfterFirstRefresh (d : Device) (o : UpdateOutcome) : CoordState :=
  match asyncUpdateData (initCoordinator d) o with
  | .ok (s1, md) => { s1 with data := some md, last_update_success := true }
  | .error _ => initCoordinator d

/-- The registry `mel_devices_setup` builds when no device's initial refresh
raises: the same categories in order, each holding one first-refreshed
coordinator per device in order. -/
def expectedRegistry (categories : List (String × List Device))
    (refreshOf : Device → UpdateOutcome) : List (String × List CoordState) :=
  categories.map fun c =>
    (c.1, c.2.map fun d => coordAfterFirstRefresh d (refreshOf d))

/-! Concrete sample inputs used by witnesses and counterexamples. -/

/-- A concrete sample device. -/
def sampleDevice : Device := { objId := 1, name := "heatpump", state := some 7 }

/-- A second concrete sample device, for fleet scenarios. -/
def sampleDeviceB : Device := { objId := 2, name := "boiler", state := some 3 }

/-- A freshly constructed coordinator for `sampleDevice`. -/
def sampleCoord : CoordState := initCoordinator sampleDevice

/-! Helper lemmas shared by the claim theorems. -/

/-- On a non-auth outcome `_async_update_data` returns normally. -/
theorem asyncUpdateData_nonAuth (s : CoordState) (o : UpdateOutcome)
    (h : isAuthOutcome o = false) :
    ∃ p, asyncUpdateData s o = .ok p := by
  cases o with
  | success fetched => exact ⟨_, rfl⟩
  | respError status =>
      simp only [isAuthOutcome, Bool.or_eq_false_iff, decide_eq_false_iff_not] at h
      have hne : ¬ (status = 401 ∨ status = 403) := by
        rintro (h1 | h1) <;> [exact h.1 h1; exact h.2 h1]
      exact ⟨({ s with device_available := false }, s.mel_device), by
        simp [asyncUpdateData, hne]⟩
  | connError => exact ⟨_, rfl⟩

/-- On a 401/403 outcome `_async_update_data` raises `ConfigEntryAuthFailed`. -/
theorem asyncUpdateData_auth (s : CoordState) (o : UpdateOutcome)
    (h : isAuthOutcome o = true) :
    asyncUpdateData s o = .error .configEntryAuthFailed := by
  cases o with
  | success fetched => simp [isAuthOutcome] at h
  | respError status =>
      simp only [isAuthOutcome, Bool.or_eq_true, decide_eq_true_eq] at h
      simp [asyncUpdateData, h]
  | connError => simp [isAuthOutcome] at h

/-- A first refresh with a non-auth outcome completes and yields
`coordAfterFirstRefresh`. -/
theorem configEntryFirstRefresh_nonAuth (d : Device) (o : UpdateOutcome)
    (h : isAuthOutcome o = false) :
    configEntryFirstRefresh (initCoordinator d) o = .ok (coordAfterFirstRefresh d o) := by
  obtain ⟨p, hp⟩ := asyncUpdateData_nonAuth (initCoordinator d) o h
  simp [configEntryFirstRefresh, coordAfterFirstRefresh, hp]

/-- A first refresh with a 401/403 outcome raises `ConfigEntryAuthFailed`. -/
theorem configEntryFirstRefresh_auth (s : CoordState) (o : UpdateOutcome)
    (h : isAuthOutcome o = true) :
    configEntryFirstRefresh s o = .error .configEntryAuthFailed := by
  simp [configEntryFirstRefresh, asyncUpdateData_auth s o h]

/-- If no device of the list has an auth-failing initial outcome, the
per-category setup loop completes with one coordinator per device. -/
theorem setupCategory_ok (devices : List Device) (refreshOf : Device → UpdateOutcome)
    (h : ∀ d ∈ devices, isAuthOutcome (refreshOf d) = false) :
    setupCategory devices refreshOf =
      .ok (devices.map fun d => coordAfterFirstRefresh d (refreshOf d)) := by
  induction devices with
  | nil => rfl
  | cons d rest ih =>
      have hd : isAuthOutcome (refreshOf d) = false := h d (List.mem_cons_self d rest)
      have hrest : ∀ x ∈ rest, isAuthOutcome (refreshOf x) = false :=
        fun x hx => h x (List.mem_cons_of_mem d hx)
      simp [setupCategory, configEntryFirstRefresh_nonAuth d (refreshOf d) hd, ih hrest]

/-- If some device of the list has an auth-failing initial outcome, the
per-category setup loop raises `ConfigEntryAuthFailed`. -/
theorem setupCategory_auth (devices : List Device) (refreshOf : Device → UpdateOutcome)
    (h : ∃ d ∈ devices, isAuthOutcome (refreshOf d) = true) :
    setupCategory devices refreshOf = .error .configEntryAuthFailed := by
  induction devices with
  | nil => simp at h
  | cons d rest ih =>
      by_cases hd : isAuthOutcome (refreshOf d) = true
      · simp [setupCategory, configEntryFirstRefresh_auth (initCoordinator d) (refreshOf d) hd]
      · have hd' : isAuthOutcome (refreshOf d) = false := by
          cases hb : isAuthOutcome (refreshOf d) with
          | false => rfl
          | true => exact absurd hb hd
        obtain ⟨x, hx, hxa⟩ := h
        rcases List.mem_cons.mp hx with hx1 | hx2
        · exact absurd (hx1 ▸ hxa) hd
        · have := ih ⟨x, hx2, hxa⟩
          simp [setupCategory, configEntryFirstRefresh_nonAuth d (refreshOf d) hd', this]

/-- If no device of any category has an auth-failing initial outcome, the
whole setup loop returns the expected category-grouped registry. -/
theorem setupCategories_ok (categories : List (String × List Device))
    (refreshOf : Device → UpdateOutcome)
    (h : ∀ c ∈ categories, ∀ d ∈ c.2, isAuthOutcome (refreshOf d) = false) :
    setupCategories categories refreshOf = .ok (expectedRegistry categories refreshOf) := by
  induction categories with
  | nil => rfl
  | cons c rest ih =>
      have hc : ∀ d ∈ c.2, isAuthOutcome (refreshOf d) = false :=
        h c (List.mem_cons_self c rest)
      have hrest : ∀ x ∈ rest, ∀ d ∈ x.2, isAuthOutcome (refreshOf d) = false :=
        fun x hx => h x (List.mem_cons_of_mem c hx)
      obtain ⟨cat, devices⟩ := c
      simp [setupCategories, setupCategory_ok devices refreshOf hc, ih hrest,
        expectedRegistry]

/-- If some device of some category has an auth-failing initial outcome, the
whole setup loop raises `ConfigEntryAuthFailed`. -/
theorem setupCategories_auth (categories : List (String × List Device))
    (refreshOf : Device → UpdateOutcome)
    (h : ∃ c ∈ categories, ∃ d ∈ c.2, isAuthOutcome (refreshOf d) = true) :
    setupCategories categories refreshOf = .error .configEntryAuthFailed := by
  induction categories with
  | nil => simp at h
  | cons c rest ih =>
      obtain ⟨x, hx, hxd⟩ := h
      rcases List.mem_cons.mp hx with hx1 | hx2
      · subst hx1
        obtain ⟨cat, devices⟩ := x
        simp [setupCategories, setupCategory_auth devices refreshOf hxd]
      · obtain ⟨cat, devices⟩ := c
        cases hcat : setupCategory devices refreshOf with
        | error e =>
            have : e = RaisedError.configEntryAuthFailed := by
              by_contra hne
              -- the only exception the device loop can raise is AuthFailed
              rcases Classical.em (∃ d ∈ devices, isAuthOutcome (refreshOf d) = true)
                with hex | hnex
              · rw [setupCategory_auth devices refreshOf hex] at hcat
                exact hne (Except.error.inj hcat).symm
              · have hall : ∀ d ∈ devices, isAuthOutcome (refreshOf d) = false := by
                  intro d hd
                  cases hb : isAuthOutcome (refreshOf d) with
                  | false => rfl
                  | true => exact absurd ⟨d, hd, hb⟩ hnex
                rw [setupCategory_ok devices refreshOf hall] at hcat
                exact Except.noConfusion hcat
            subst this
            simp [setupCategories, hcat]
        | ok ss =>
            simp [setupCategories, hcat, ih ⟨x, hx2, hxd⟩]

/-- A scheduled refresh never changes the poll interval. -/
theorem scheduledRefresh_interval (s : CoordState) (o : UpdateOutcome) :
    (scheduledRefresh s o).update_interval_minutes = s.update_interval_minutes := by
  cases o with
  | success fetched => rfl
  | respError status =>
      by_cases h : status = 401 ∨ status = 403 <;>
        simp [scheduledRefresh, asyncUpdateData, h]
  | connError => rfl

/-- A poll sequence never changes the poll interval. -/
theorem runPolls_interval (s : CoordState) (outs : List UpdateOutcome) :
    (runPolls s outs).update_interval_minutes = s.update_interval_minutes := by
  induction outs generalizing s with
  | nil => rfl
  | cons o rest ih =>
      show (runPolls (scheduledRefresh s o) rest).update_interval_minutes = _
      rw [ih (scheduledRefresh s o), scheduledRefresh_interval]

/-- A scheduled refresh never changes the identity of the wrapped device. -/
theorem scheduledRefresh_objId (s : CoordState) (o : UpdateOutcome) :
    (scheduledRefresh s o).device.objId = s.device.objId := by
  cases o with
  | success fetched => rfl
  | respError status =>
      by_cases h : status = 401 ∨ status = 403 <;>
        simp [scheduledRefresh, asyncUpdateData, h]
  | connError => rfl

/-- A scheduled refresh never changes the identity of the wrapper object. -/
theorem scheduledRefresh_wrapperId (s : CoordState) (o : UpdateOutcome) :
    (scheduledRefresh s o).mel_device.wrapperId = s.mel_device.wrapperId := by
  cases o with
  | success fetched => rfl
  | respError status =>
      by_cases h : status = 401 ∨ status = 403 <;>
        simp [scheduledRefresh, asyncUpdateData, h]
  | connError => rfl

/-- A poll sequence never changes the wrapped device's identity. -/
theorem runPolls_objId (s : CoordState) (outs : List UpdateOutcome) :
    (runPolls s outs).device.objId = s.device.objId := by
  induction outs generalizing s with
  | nil => rfl
  | cons o rest ih =>
      show (runPolls (scheduledRefresh s o) rest).device.objId = _
      rw [ih (scheduledRefresh s o), scheduledRefresh_objId]

/-- A poll sequence never changes the wrapper object's identity. -/
theorem runPolls_wrapperId (s : CoordState) (outs : List UpdateOutcome) :
    (runPolls s outs).mel_device.wrapperId = s.mel_device.wrapperId := by
  induction outs generalizing s with
  | nil => rfl
  | cons o rest ih =>
      show (runPolls (scheduledRefresh s o) rest).mel_device.wrapperId = _
      rw [ih (scheduledRefresh s o), scheduledRefresh_wrapperId]

/-- After a scheduled refresh with a non-raising outcome, the coordinator's
stored data is exactly its own wrapper object. -/
theorem scheduledRefresh_data_nonAuth (s : CoordState) (o : UpdateOutcome)
    (h : isAuthOutcome o = false) :
    (scheduledRefresh s o).data = some ((scheduledRefresh s o).mel_device) := by
  cases o with
  | success fetched => rfl
  | respError status =>
      simp only [isAuthOutcome, Bool.or_eq_false_iff, decide_eq_false_iff_not] at h
      have hne : ¬ (status = 401 ∨ status = 403) := by
        rintro (h1 | h1) <;> [exact h.1 h1; exact h.2 h1]
      simp [scheduledRefresh, asyncUpdateData, hne]
  | connError => rfl

/-- After a non-empty sequence of non-raising polls, the stored data is the
coordinator's own wrapper object. -/
theorem runPolls_data_nonAuth (s : CoordState) (outs : List UpdateOutcome)
    (hall : ∀ o ∈ outs, isAuthOutcome o = false) (hne : outs ≠ []) :
    (runPolls s outs).data = some ((runPolls s outs).mel_device) := by
  induction outs generalizing s with
  | nil => exact absurd rfl hne
  | cons o rest ih =>
      have ho : isAuthOutcome o = false := hall o (List.mem_cons_self o rest)
      cases rest with
      | nil => exact scheduledRefresh_data_nonAuth s o ho
      | cons o2 rest2 =>
          have hall2 : ∀ x ∈ o2 :: rest2, isAuthOutcome x = false :=
            fun x hx => hall x (List.mem_cons_of_mem o hx)
          exact ih (scheduledRefresh s o) hall2 (by simp)

/-- C1: a poll whose fetch fails with HTTP 401 or 403 raises
`ConfigEntryAuthFailed`; a poll failing with any other HTTP status or with a
connection error does not raise but only flips `device_available` to
`false`, leaving everything else untouched — so auth failures are
distinguishable from connection failures. -/
theorem poll_auth_distinguished_from_transport (s : CoordState) (status : Nat) :
    (status = 401 ∨ status = 403 →
      asyncUpdateData s (.respError status) = .error .configEntryAuthFailed)
    ∧ (¬ (status = 401 ∨ status = 403) →
      asyncUpdateData s (.respError status) =
        .ok ({ s with device_available := false }, s.mel_device))
    ∧ asyncUpdateData s .connError =
        .ok ({ s with device_available := false }, s.mel_device) := by
  refine ⟨fun h => ?_, fun h => ?_, rfl⟩
  · simp [asyncUpdateData, h]
  · simp [asyncUpdateData, h]

/-- Witness for C1 at status 401 (auth) and 500 (transport). -/
theorem poll_auth_distinguished_from_transport_witness :
    ((401 : Nat) = 401 ∨ (401 : Nat) = 403)
    ∧ asyncUpdateData sampleCoord (.respError 401) = .error .configEntryAuthFailed
    ∧ ¬ ((500 : Nat) = 401 ∨ (500 : Nat) = 403)
    ∧ asyncUpdateData sampleCoord (.respError 500) =
        .ok ({ sampleCoord with device_available := false }, sampleCoord.mel_device) :=
  ⟨Or.inl rfl,
   (poll_auth_distinguished_from_transport sampleCoord 401).1 (Or.inl rfl),
   by decide,
   (poll_auth_distinguished_from_transport sampleCoord 500).2.1 (by decide)⟩

/-- C2 counterexample: `async_set` only catches `ClientConnectionError`, so
when the underlying `Device.set` call fails with an HTTP response error
(here status 500), the error propagates to the caller and the debounced
refresh is skipped — refuting the claim that no failing outcome of `set`
propagates. -/
theorem set_resp_error_propagates :
    asyncSet sampleCoord [("power", "false")] (.respError 500) =
      .error (.clientResponseError 500) := rfl

/-- C2 (amended): for every properties map, a `set` that succeeds marks the
device available, a `set` failing with a connection error marks it
unavailable without raising, and in both of those cases the debounced
`request_refresh` is still triggered; a `set` failing with an HTTP response
error, however, propagates the error to the caller and skips the refresh. -/
theorem set_connection_failures_absorbed (s : CoordState)
    (properties : List (String × String)) (status : Nat) :
    asyncSet s properties .success =
      .ok { state := { s with device_available := true }, refreshRequested := true }
    ∧ asyncSet s properties .connError =
      .ok { state := { s with device_available := false }, refreshRequested := true }
    ∧ asyncSet s properties (.respError status) =
      .error (.clientResponseError status) :=
  ⟨rfl, rfl, rfl⟩

/-- C6: a poll whose fetch fails with HTTP 429 flips `device_available` to
`false`, raises nothing (`_async_update_data` returns normally), and leaves
the stored device snapshot — the wrapped device, its state blob, the state
hash — and the poll interval unchanged. -/
theorem poll_429_no_data_loss (s : CoordState) :
    asyncUpdateData s (.respError 429) =
      .ok ({ s with device_available := false }, s.mel_device)
    ∧ (scheduledRefresh s (.respError 429)).device_available = false
    ∧ (scheduledRefresh s (.respError 429)).device = s.device
    ∧ (scheduledRefresh s (.respError 429)).mel_device = s.mel_device
    ∧ (scheduledRefresh s (.respError 429)).last_state_hash = s.last_state_hash
    ∧ (scheduledRefresh s (.respError 429)).update_interval_minutes =
        s.update_interval_minutes := by
  have h : ¬ ((429 : Nat) = 401 ∨ (429 : Nat) = 403) := by decide
  refine ⟨?_, ?_, ?_, ?_, ?_, ?_⟩ <;> simp [asyncUpdateData, scheduledRefresh, h]

/-- C7: a poll whose fetch fails with a connection error flips
`device_available` to `false` and leaves the snapshot unchanged, and no
failure of any kind ever modifies the poll interval, which stays at the
fixed `DEFAULT_UPDATE_INTERVAL` from construction through any sequence of
poll outcomes. -/
theorem poll_conn_error_no_backoff (s : CoordState) (d : Device)
    (outs : List UpdateOutcome) :
    asyncUpdateData s .connError =
      .ok ({ s with device_available := false }, s.mel_device)
    ∧ (scheduledRefresh s .connError).device_available = false
    ∧ (scheduledRefresh s .connError).device = s.device
    ∧ (scheduledRefresh s .connError).mel_device = s.mel_device
    ∧ (scheduledRefresh s .connError).last_state_hash = s.last_state_hash
    ∧ (runPolls s outs).update_interval_minutes = s.update_interval_minutes
    ∧ (runPolls (initCoordinator d) outs).update_interval_minutes =
        DEFAULT_UPDATE_INTERVAL :=
  ⟨rfl, rfl, rfl, rfl, rfl, runPolls_interval s outs,
    runPolls_interval (initCoordinator d) outs⟩

/-- C3 counterexample: for a device whose initial fetch fails with a
connection error — a non-auth transport failure — the first refresh does not
surface NotReady: `_async_update_data` swallows the error and returns
normally, so `async_config_entry_first_refresh` completes as a success and
setup for the device is not deferred. -/
theorem first_refresh_conn_error_completes :
    configEntryFirstRefresh sampleCoord .connError =
      .ok { sampleCoord with
            device_available := false
            data := some sampleCoord.mel_device
            last_update_success := true } := rfl

/-- C3 (amended): for every device whose initial fetch fails with a non-auth
transport failure (connection error or non-401/403 status), the initial
refresh completes as a success without surfacing NotReady: the device is
merely marked unavailable and left to recover at the next scheduled poll,
and setup proceeds. -/
theorem first_refresh_transport_failure_absorbed (s : CoordState) (status : Nat)
    (h : ¬ (status = 401 ∨ status = 403)) :
    configEntryFirstRefresh s (.respError status) =
      .ok { s with
            device_available := false
            data := some s.mel_device
            last_update_success := true }
    ∧ configEntryFirstRefresh s .connError =
      .ok { s with
            device_available := false
            data := some s.mel_device
            last_update_success := true } := by
  refine ⟨?_, rfl⟩
  simp [configEntryFirstRefresh, asyncUpdateData, h]

/-- Witness for the amended C3 at status 429. -/
theorem first_refresh_transport_failure_absorbed_witness :
    ¬ ((429 : Nat) = 401 ∨ (429 : Nat) = 403)
    ∧ configEntryFirstRefresh sampleCoord (.respError 429) =
        .ok { sampleCoord with
              device_available := false
              data := some sampleCoord.mel_device
              last_update_success := true } :=
  ⟨by decide, (first_refresh_transport_failure_absorbed sampleCoord 429 (by decide)).1⟩

/-- C4: during fleet setup, one device's 401/403 initial refresh raises
`ConfigEntryAuthFailed` for the whole fleet, regardless of other devices'
outcomes; and when no device's initial outcome is an auth failure — even if
some fail with connection errors or other statuses — setup completes for
every device, returning the full registry. -/
theorem fleet_setup_auth_fatal_only (categories : List (String × List Device))
    (refreshOf : Device → UpdateOutcome) :
    ((∃ c ∈ categories, ∃ d ∈ c.2, isAuthOutcome (refreshOf d) = true) →
      melDevicesSetup (.success categories) refreshOf = .error .configEntryAuthFailed)
    ∧ ((∀ c ∈ categories, ∀ d ∈ c.2, isAuthOutcome (refreshOf d) = false) →
      melDevicesSetup (.success categories) refreshOf =
        .ok (expectedRegistry categories refreshOf)) :=
  ⟨fun h => setupCategories_auth categories refreshOf h,
   fun h => setupCategories_ok categories refreshOf h⟩

/-- A two-device fleet in one category. -/
def sampleFleet : List (String × List Device) := [("atw", [sampleDevice, sampleDeviceB])]

/-- Initial outcomes: device A (objId 1) fails 403, device B succeeds. -/
def authRefreshOf (d : Device) : UpdateOutcome :=
  if d.objId = 1 then .respError 403 else .success (some 5)

/-- Initial outcomes: device A (objId 1) fails with a connection error,
device B succeeds. -/
def connRefreshOf (d : Device) : UpdateOutcome :=
  if d.objId = 1 then .connError else .success (some 5)

/-- Witness for C4: device A failing 403 while device B succeeds makes the
whole setup raise AuthFailed; device A failing with a connection error does
not abort setup, which returns both devices' coordinators. -/
theorem fleet_setup_auth_fatal_only_witness :
    (∃ c ∈ sampleFleet, ∃ d ∈ c.2, isAuthOutcome (authRefreshOf d) = true)
    ∧ melDevicesSetup (.success sampleFleet) authRefreshOf =
        .error .configEntryAuthFailed
    ∧ (∀ c ∈ sampleFleet, ∀ d ∈ c.2, isAuthOutcome (connRefreshOf d) = false)
    ∧ melDevicesSetup (.success sampleFleet) connRefreshOf =
        .ok (expectedRegistry sampleFleet connRefreshOf) :=
  ⟨by decide,
   (fleet_setup_auth_fatal_only sampleFleet authRefreshOf).1 (by decide),
   by decide,
   (fleet_setup_auth_fatal_only sampleFleet connRefreshOf).2 (by decide)⟩

/-- The rate-limit `UpdateFailed` message differs from every generic
communication-failure message (they disagree on the first character). -/
theorem rateLimitMsg_ne_generic (tag : String) : rateLimitMsg ≠ commErrorMsg tag := by
  intro h
  have h2 : rateLimitMsg.data.head? = (commErrorMsg tag).data.head? := by rw [h]
  have h3 : (some 'M' : Option Char) = some 'E' := by
    calc (some 'M' : Option Char) = rateLimitMsg.data.head? := rfl
      _ = (commErrorMsg tag).data.head? := h2
      _ = some 'E' := by
          show (("Error communicating with MELCloud: " : String) ++ tag).data.head?
            = some 'E'
          rw [String.data_append]
          rfl
  simp at h3

/-- C5: the 10-second-bounded fleet enumeration call is classified as
follows — 401/403 raises `ConfigEntryAuthFailed`; 429 raises an
`UpdateFailed` carrying the rate-limit message, which differs from every
generic communication-failure message; a timeout or connection error (and
any other HTTP status) raises the generic `UpdateFailed`; and on success,
when no device's initial refresh raises, a registry grouped by device
category is returned. -/
theorem discovery_outcome_classification (status : Nat) (tag : String)
    (categories : List (String × List Device)) (refreshOf : Device → UpdateOutcome) :
    (status = 401 ∨ status = 403 →
      melDevicesSetup (.respError status) refreshOf = .error .configEntryAuthFailed)
    ∧ melDevicesSetup (.respError 429) refreshOf = .error (.updateFailed rateLimitMsg)
    ∧ rateLimitMsg ≠ commErrorMsg tag
    ∧ melDevicesSetup .timeout refreshOf =
        .error (.updateFailed (commErrorMsg "timeout"))
    ∧ melDevicesSetup .connError refreshOf =
        .error (.updateFailed (commErrorMsg "connection error"))
    ∧ (¬ (status = 401 ∨ status = 403) → status ≠ 429 →
        melDevicesSetup (.respError status) refreshOf =
          .error (.updateFailed (commErrorMsg ("status " ++ toString status))))
    ∧ ((∀ c ∈ categories, ∀ d ∈ c.2, isAuthOutcome (refreshOf d) = false) →
        melDevicesSetup (.success categories) refreshOf =
          .ok (expectedRegistry categories refreshOf)) := by
  refine ⟨fun h => ?_, rfl, rateLimitMsg_ne_generic tag, rfl, rfl,
    fun h1 h2 => ?_, fun h => setupCategories_ok categories refreshOf h⟩
  · simp [melDevicesSetup, h]
  · simp [melDevicesSetup, h1, h2]

/-- Witness for C5 at statuses 403 and 500 and the sample fleet. -/
theorem discovery_outcome_classification_witness :
    ((403 : Nat) = 401 ∨ (403 : Nat) = 403)
    ∧ melDevicesSetup (.respError 403) connRefreshOf = .error .configEntryAuthFailed
    ∧ ¬ ((500 : Nat) = 401 ∨ (500 : Nat) = 403)
    ∧ (500 : Nat) ≠ 429
    ∧ melDevicesSetup (.respError 500) connRefreshOf =
        .error (.updateFailed (commErrorMsg ("status " ++ toString (500 : Nat))))
    ∧ (∀ c ∈ sampleFleet, ∀ d ∈ c.2, isAuthOutcome (connRefreshOf d) = false)
    ∧ melDevicesSetup (.success sampleFleet) connRefreshOf =
        .ok (expectedRegistry sampleFleet connRefreshOf) :=
  ⟨Or.inr rfl,
   (discovery_outcome_classification 403 "x" sampleFleet connRefreshOf).1 (Or.inr rfl),
   by decide, by decide,
   (discovery_outcome_classification 500 "x" sampleFleet
     connRefreshOf).2.2.2.2.2.1 (by decide) (by decide),
   by decide,
   (discovery_outcome_classification 500 "x" sampleFleet
     connRefreshOf).2.2.2.2.2.2 (by decide)⟩

/-- C8: a first refresh whose fetch succeeds leaves the coordinator with
`device_available = true` and a non-null stored snapshot; and after any
sequence of refreshes the availability flag is a definite boolean. -/
theorem initial_refresh_success_invariants (s : CoordState) (fetched : Option Nat)
    (outs : List UpdateOutcome) :
    (∃ s1, configEntryFirstRefresh s (.success fetched) = .ok s1
       ∧ s1.device_available = true ∧ s1.data.isSome = true)
    ∧ ((runPolls s outs).device_available = true
        ∨ (runPolls s outs).device_available = false) :=
  ⟨⟨_, rfl, rfl, rfl⟩, Or.symm (Bool.dichotomy _)⟩

/-- C10: every non-raising path of `_async_update_data` — success, 429,
other HTTP response error, connection error — returns the coordinator's own
wrapper object, whose identity (and that of the device it wraps) is the one
fixed at construction; hence over any sequence of such refreshes from
construction, including all-failing ones, the stored snapshot is non-null
and is that same wrapper around the same device. -/
theorem update_returns_constructor_wrapper (d : Device) (s : CoordState)
    (o : UpdateOutcome) (outs : List UpdateOutcome)
    (ho : isAuthOutcome o = false)
    (hall : ∀ x ∈ outs, isAuthOutcome x = false) :
    (∃ s1, asyncUpdateData s o = .ok (s1, s1.mel_device)
       ∧ s1.mel_device.wrapperId = s.mel_device.wrapperId
       ∧ s1.device.objId = s.device.objId)
    ∧ (runPolls (initCoordinator d) outs).mel_device.wrapperId = d.objId
    ∧ (runPolls (initCoordinator d) outs).device.objId = d.objId
    ∧ (outs ≠ [] → (runPolls (initCoordinator d) outs).data =
        some ((runPolls (initCoordinator d) outs).mel_device)) := by
  refine ⟨?_, ?_, ?_, fun hne => runPolls_data_nonAuth _ outs hall hne⟩
  · cases o with
    | success fetched => exact ⟨_, rfl, rfl, rfl⟩
    | respError status =>
        simp only [isAuthOutcome, Bool.or_eq_false_iff, decide_eq_false_iff_not] at ho
        have hne : ¬ (status = 401 ∨ status = 403) := by
          rintro (h1 | h1) <;> [exact ho.1 h1; exact ho.2 h1]
        exact ⟨{ s with device_available := false },
          by simp [asyncUpdateData, hne], rfl, rfl⟩
    | connError => exact ⟨_, rfl, rfl, rfl⟩
  · rw [runPolls_wrapperId]
    rfl
  · rw [runPolls_objId]
    rfl

/-- Witness for C10: one connection-error update on a fresh coordinator —
an everything-fails lifetime — still stores the constructor's wrapper. -/
theorem update_returns_constructor_wrapper_witness :
    isAuthOutcome .connError = false
    ∧ (∀ x ∈ ([.connError] : List UpdateOutcome), isAuthOutcome x = false)
    ∧ ((∃ s1, asyncUpdateData sampleCoord .connError = .ok (s1, s1.mel_device)
         ∧ s1.mel_device.wrapperId = sampleCoord.mel_device.wrapperId
         ∧ s1.device.objId = sampleCoord.device.objId)
       ∧ (runPolls (initCoordinator sampleDevice) [.connError]).mel_device.wrapperId
           = sampleDevice.objId
       ∧ (runPolls (initCoordinator sampleDevice) [.connError]).device.objId
           = sampleDevice.objId
       ∧ (([.connError] : List UpdateOutcome) ≠ [] →
           (runPolls (initCoordinator sampleDevice) [.connError]).data =
             some ((runPolls (initCoordinator sampleDevice) [.connError]).mel_device))) :=
  ⟨rfl, by decide,
   update_returns_constructor_wrapper sampleDevice sampleCoord .connError
     [.connError] rfl (by decide)⟩

end MelCloud
